import Mathlib

/-!
Shallow embedding of the OCR selection/extraction tool in `src/app/page.tsx`
(component `OCRTool`). JavaScript numbers are modelled as rationals (`ℚ`):
every arithmetic operation the component performs on coordinates is exact
(+, -, *, /, min, max, abs), so `ℚ` is a faithful carrier. Canvas pixel
dimensions are natural numbers.
-/

namespace OCRTool

/-- The `Selection` interface (page.tsx lines 16-21): a rectangle in
display-canvas pixel space. -/
structure Selection where
  x : ℚ
  y : ℚ
  width : ℚ
  height : ℚ
  deriving Repr, DecidableEq

/-- The `PDFPage` interface (page.tsx lines 23-26): a rasterized page backed by
an offscreen canvas; we keep its pixel dimensions and page number. -/
structure PDFPage where
  width : ℕ
  height : ℕ
  pageNumber : ℕ
  deriving Repr, DecidableEq

/-- Conversion of a client (screen) coordinate into canvas pixel coordinates,
as done in `handleMouseDown` (lines 216-221) and in the drag-move handler
(lines 227-232): `(clientX - rect.left) * (canvas.width / rect.width)`. -/
def toCanvasCoord (client rectEdge canvasDimPx renderedDim : ℚ) : ℚ :=
  (client - rectEdge) * (canvasDimPx / renderedDim)

/-- `handleMouseDown` (line 223): the selection created at drag start. -/
def mouseDownSelection (x y : ℚ) : Selection :=
  { x := x, y := y, width := 0, height := 0 }

/-- `handleMouseMove` (lines 234-239): the selection produced when a drag that
started at canvas coordinates `(x, y)` has moved to `(currentX, currentY)`. -/
def mouseMoveSelection (x y currentX currentY : ℚ) : Selection :=
  { x := min x currentX
    y := min y currentY
    width := |currentX - x|
    height := |currentY - y| }

/-- Initial zoom state (line 72: `useState(1)`). -/
def initialZoom : ℚ := 1

/-- Zoom-out button (line 409): `Math.max(0.5, zoom - 0.25)`. -/
def zoomOutStep (z : ℚ) : ℚ := max (1/2) (z - 1/4)

/-- Zoom-in button (line 412): `Math.min(3, zoom + 0.25)`. -/
def zoomInStep (z : ℚ) : ℚ := min 3 (z + 1/4)

/-- Zoom-reset button (line 415): `setZoom(1)`. -/
def zoomResetStep (_ : ℚ) : ℚ := 1

/-- The three zoom control events (lines 409-417). -/
inductive ZoomEvent where
  | zoomIn
  | zoomOut
  | zoomReset
  deriving Repr, DecidableEq

/-- Effect of one zoom control on the zoom state. -/
def applyZoom : ZoomEvent → ℚ → ℚ
  | .zoomIn, z => zoomInStep z
  | .zoomOut, z => zoomOutStep z
  | .zoomReset, z => zoomResetStep z

/-- Assigning a (possibly fractional, non-negative) JS number to a canvas's
`width`/`height` IDL attribute of type `unsigned long` converts it by
truncation toward zero (WebIDL `ToUint32`); for the non-negative values
produced here that is the floor. Models `tempCanvas.width = sourceWidth`
(lines 269-270). -/
def canvasDimOfNumber (q : ℚ) : ℕ := (⌊q⌋).toNat

/-- An axis-aligned rectangle in source-raster pixel space. -/
structure SourceRect where
  x : ℚ
  y : ℚ
  w : ℚ
  h : ℚ
  deriving Repr, DecidableEq

/-- The crop request built by `performOCR` (lines 264-272): the source-space
rectangle obtained by dividing the selection by the zoom, and the pixel
dimensions of the temporary canvas that receives the crop. -/
structure Crop where
  sourceX : ℚ
  sourceY : ℚ
  sourceWidth : ℚ
  sourceHeight : ℚ
  canvasW : ℕ
  canvasH : ℕ
  deriving Repr, DecidableEq

/-- The Region Extractor core of `performOCR` (lines 264-272):
`sourceX = selection.x / zoom` and likewise for y/width/height, then
`tempCanvas.width = sourceWidth` / `tempCanvas.height = sourceHeight`. -/
def extractRegion (sel : Selection) (zoom : ℚ) : Crop :=
  { sourceX := sel.x / zoom
    sourceY := sel.y / zoom
    sourceWidth := sel.width / zoom
    sourceHeight := sel.height / zoom
    canvasW := canvasDimOfNumber (sel.width / zoom)
    canvasH := canvasDimOfNumber (sel.height / zoom) }

/-- Clipping of the `drawImage` source rectangle to the bounds of the source
canvas, as the HTML canvas specification requires when the requested source
rectangle extends outside the source image (applies to the call at line 272).
The result is the intersection of the requested rectangle with
`[0, pageWidth] × [0, pageHeight]` (empty intersections yield zero extent). -/
def clampToPage (pw ph : ℕ) (r : SourceRect) : SourceRect :=
  { x := min (max r.x 0) (pw : ℚ)
    y := min (max r.y 0) (ph : ℚ)
    w := max (min (r.x + r.w) (pw : ℚ) - max r.x 0) 0
    h := max (min (r.y + r.h) (ph : ℚ) - max r.y 0) 0 }

/-- The effective source rectangle actually copied from the page raster by the
`drawImage` call at line 272, after the platform clips it to the page. -/
def effectiveSource (page : PDFPage) (c : Crop) : SourceRect :=
  clampToPage page.width page.height
    { x := c.sourceX, y := c.sourceY, w := c.sourceWidth, h := c.sourceHeight }

/-- The session state held by the `OCRTool` component (lines 69-77). The
`isProcessing` flag is set at the start of each asynchronous operation and
cleared in its `finally` block, so it is unchanged across every completed
operation and is omitted. `pdfFile` is modelled by the file name. -/
structure SessionState where
  pdfFile : Option String
  pdfPages : List PDFPage
  currentPage : ℕ
  zoom : ℚ
  selection : Option Selection
  extractedText : String
  deriving Repr, DecidableEq

/-- Outcome of the external decode step of an accepted upload: image decoding
(lines 104-130) or PDF rasterization (lines 131-163) either yields the page
list or throws. -/
inductive DecodeResult where
  | ok (pages : List PDFPage)
  | err
  deriving Repr, DecidableEq

/-- The MIME acceptance check of `handleFileUpload` (lines 88-91): accept iff
`file.type.startsWith("image/") || file.type === "application/pdf"`. The
JavaScript `startsWith` is the character-prefix test, modelled here on the
string's character list. -/
def acceptsFileType (t : String) : Bool :=
  "image/".data.isPrefixOf t.data || t == "application/pdf"

/-- `handleFileUpload` (lines 83-175) as a state transformer. On a rejected
type it toasts and returns before touching any state (lines 91-98). On an
accepted type it first runs `setPdfFile(file)` (line 100), then decodes; on
success it replaces the page list and resets the current page (lines 121-122,
158-159), on a decode exception it only toasts (lines 165-171). -/
def handleFileUpload (st : SessionState) (fileName fileType : String)
    (decode : DecodeResult) : SessionState :=
  if acceptsFileType fileType then
    let st1 := { st with pdfFile := some fileName }
    match decode with
    | .ok pages => { st1 with pdfPages := pages, currentPage := 0 }
    | .err => st1
  else
    st

/-- The guard and crop construction of `performOCR` (lines 254-272): if no
selection exists or `pdfPages[currentPage]` is undefined it returns early and
Tesseract is never invoked (`none`); otherwise `Tesseract.recognize` is
invoked on the crop built from the selection and the *current* zoom
(`some crop`). -/
def performOCRCrop (st : SessionState) : Option Crop :=
  match st.selection, st.pdfPages.get? st.currentPage with
  | some sel, some _ => some (extractRegion sel st.zoom)
  | _, _ => none

/-- Outcome of the external `Tesseract.recognize` call (lines 274-278). -/
inductive RecognitionResult where
  | ok (text : String)
  | err
  deriving Repr, DecidableEq

/-- `performOCR` (lines 254-295) as a state transformer: early return when the
guard fails; on recognition success `setExtractedText(text.trim())`
(line 280); on recognition failure only a toast (lines 285-291). -/
def performOCRState (st : SessionState) (recog : RecognitionResult) :
    SessionState :=
  match st.selection, st.pdfPages.get? st.currentPage with
  | some _, some _ =>
    match recog with
    | .ok text => { st with extractedText := text.trim }
    | .err => st
  | _, _ => st

/-- A zoom control applied to the session (lines 409-417 call `setZoom`). -/
def stepZoom (st : SessionState) (e : ZoomEvent) : SessionState :=
  { st with zoom := applyZoom e st.zoom }

/-- Previous-page button (line 388): `setCurrentPage(Math.max(0, currentPage - 1))`,
on JS numbers, i.e. over ℤ. -/
def prevPage (i : ℤ) : ℤ := max 0 (i - 1)

/-- Next-page button (line 397):
`setCurrentPage(Math.min(pdfPages.length - 1, currentPage + 1))`. -/
def nextPage (n i : ℤ) : ℤ := min (n - 1) (i + 1)

/-- Previous button disabled condition (line 389): `currentPage === 0`. -/
def prevDisabled (i : ℤ) : Bool := i == 0

/-- Next button disabled condition (line 398):
`currentPage === pdfPages.length - 1`. -/
def nextDisabled (n i : ℤ) : Bool := i == n - 1

/-- Display canvas intrinsic size set by `drawCurrentPage` (lines 186-187):
`canvas.width = sourcePage.canvas.width * zoom` and likewise for height.
This is the Viewport Renderer's forward scale. -/
def displaySize (page : PDFPage) (zoom : ℚ) : ℚ × ℚ :=
  ((page.width : ℚ) * zoom, (page.height : ℚ) * zoom)

/-- A 1000×800 rasterized page, as in the scenario of §8 of the spec. -/
def pageA : PDFPage := { width := 1000, height := 800, pageNumber := 1 }

/-- The initial session: nothing uploaded yet (lines 69-77 initial states). -/
def baseState : SessionState :=
  { pdfFile := none, pdfPages := [], currentPage := 0, zoom := 1,
    selection := none, extractedText := "" }

/-- A session with one loaded page and no selection. -/
def loadedState : SessionState :=
  { pdfFile := some ("old.pdf"), pdfPages := [pageA], currentPage := 0, zoom := 1,
    selection := none, extractedText := "" }

/-- The session reached after loading a 1000×800 page at zoom 1 and performing
a zero-movement drag at (100,100): the selection is the degenerate rectangle
{100, 100, 0, 0} (lines 223 and 234-239 with `currentX = x`, `currentY = y`). -/
def degenState : SessionState :=
  { pdfFile := some ("scan.pdf"), pdfPages := [pageA], currentPage := 0, zoom := 1,
    selection := some { x := 100, y := 100, width := 0, height := 0 },
    extractedText := "" }

/-- A session with the 1000×800 page shown at zoom 2 and the frozen selection
{100, 100, 200, 150} of the §8 scenario. -/
def zoom2State : SessionState :=
  { pdfFile := some ("scan.pdf"), pdfPages := [pageA], currentPage := 0, zoom := 2,
    selection := some { x := 100, y := 100, width := 200, height := 150 },
    extractedText := "" }

/-- A session whose selection extends past the rendered page edge: at zoom 2
the source rectangle (950, 750, 100, 100) overruns the 1000×800 page. -/
def pastEdgeState : SessionState :=
  { pdfFile := some ("scan.pdf"), pdfPages := [pageA], currentPage := 0, zoom := 2,
    selection := some { x := 1900, y := 1500, width := 200, height := 200 },
    extractedText := "" }

/-- C1: For every drag that starts at display-canvas coordinates (x0,y0) and
moves to (x1,y1), in any direction, the Selection produced by the drag-move
handler equals { x := min x0 x1, y := min y0 y1, width := |x1 - x0|,
height := |y1 - y0| }; hence width ≥ 0 and height ≥ 0, (x,y) is the top-left
corner (it is ≤ both drag endpoints componentwise), and (x + width, y + height)
is the bottom-right corner. -/
theorem selection_normalizes_drag (x0 y0 x1 y1 : ℚ) :
    mouseMoveSelection x0 y0 x1 y1 =
      { x := min x0 x1, y := min y0 y1, width := |x1 - x0|, height := |y1 - y0| } ∧
    0 ≤ (mouseMoveSelection x0 y0 x1 y1).width ∧
    0 ≤ (mouseMoveSelection x0 y0 x1 y1).height ∧
    (mouseMoveSelection x0 y0 x1 y1).x ≤ x0 ∧
    (mouseMoveSelection x0 y0 x1 y1).x ≤ x1 ∧
    (mouseMoveSelection x0 y0 x1 y1).y ≤ y0 ∧
    (mouseMoveSelection x0 y0 x1 y1).y ≤ y1 ∧
    (mouseMoveSelection x0 y0 x1 y1).x + (mouseMoveSelection x0 y0 x1 y1).width
      = max x0 x1 ∧
    (mouseMoveSelection x0 y0 x1 y1).y + (mouseMoveSelection x0 y0 x1 y1).height
      = max y0 y1 := by
  refine ⟨rfl, abs_nonneg _, abs_nonneg _, min_le_left _ _, min_le_right _ _,
    min_le_left _ _, min_le_right _ _, ?_, ?_⟩
  · show min x0 x1 + |x1 - x0| = max x0 x1
    rcases le_total x0 x1 with h | h
    · rw [min_eq_left h, max_eq_right h, abs_of_nonneg (by linarith)]; ring
    · rw [min_eq_right h, max_eq_left h, abs_of_nonpos (by linarith)]; ring
  · show min y0 y1 + |y1 - y0| = max y0 y1
    rcases le_total y0 y1 with h | h
    · rw [min_eq_left h, max_eq_right h, abs_of_nonneg (by linarith)]; ring
    · rw [min_eq_right h, max_eq_left h, abs_of_nonpos (by linarith)]; ring

/-- C2: for any Selection and any zoom z in [1/2, 3], extracting (dividing each
component by z) and mapping back to display space (multiplying by z)
reproduces each of x, y, width, height within an absolute tolerance of 1 pixel
(the round trip is in fact exact in the component arithmetic). -/
theorem extract_rescale_roundtrip (sel : Selection) (z : ℚ)
    (h1 : 1/2 ≤ z) (h2 : z ≤ 3) :
    |(extractRegion sel z).sourceX * z - sel.x| ≤ 1 ∧
    |(extractRegion sel z).sourceY * z - sel.y| ≤ 1 ∧
    |(extractRegion sel z).sourceWidth * z - sel.width| ≤ 1 ∧
    |(extractRegion sel z).sourceHeight * z - sel.height| ≤ 1 := by
  have hz : z ≠ 0 := by intro h; rw [h] at h1; norm_num at h1
  refine ⟨?_, ?_, ?_, ?_⟩
  · show |sel.x / z * z - sel.x| ≤ 1
    rw [div_mul_cancel₀ _ hz]; simp
  · show |sel.y / z * z - sel.y| ≤ 1
    rw [div_mul_cancel₀ _ hz]; simp
  · show |sel.width / z * z - sel.width| ≤ 1
    rw [div_mul_cancel₀ _ hz]; simp
  · show |sel.height / z * z - sel.height| ≤ 1
    rw [div_mul_cancel₀ _ hz]; simp

/-- Witness for C2: the §8 scenario selection {100,100,200,150} at zoom 2. -/
theorem extract_rescale_roundtrip_witness :
    |(extractRegion { x := 100, y := 100, width := 200, height := 150 } 2).sourceX
        * 2 - 100| ≤ 1 ∧
    |(extractRegion { x := 100, y := 100, width := 200, height := 150 } 2).sourceY
        * 2 - 100| ≤ 1 ∧
    |(extractRegion { x := 100, y := 100, width := 200, height := 150 } 2).sourceWidth
        * 2 - 200| ≤ 1 ∧
    |(extractRegion { x := 100, y := 100, width := 200, height := 150 } 2).sourceHeight
        * 2 - 150| ≤ 1 :=
  extract_rescale_roundtrip { x := 100, y := 100, width := 200, height := 150 } 2
    (by norm_num) (by norm_num)

/-- C4 counterexample: for selection width 3 at zoom 2 the source width is 1.5;
the temporary canvas receives pixel width ⌊1.5⌋ = 1 (the WebIDL unsigned-long
conversion truncates), while round(1.5) = 2, so the crop's pixel dimensions are
not round(sourceWidth) as claimed. -/
theorem extract_dims_not_round :
    ((extractRegion { x := 0, y := 0, width := 3, height := 3 } 2).canvasW : ℤ) ≠
      round ((extractRegion { x := 0, y := 0, width := 3, height := 3 } 2).sourceWidth) := by
  have h1 : (extractRegion { x := 0, y := 0, width := 3, height := 3 } 2).sourceWidth
      = (3:ℚ)/2 := rfl
  have h2 : (extractRegion { x := 0, y := 0, width := 3, height := 3 } 2).canvasW
      = (⌊(3:ℚ)/2⌋).toNat := rfl
  rw [h1, h2]
  have h3 : ⌊(3:ℚ)/2⌋ = 1 := by norm_num
  have h4 : round ((3:ℚ)/2) = 2 := by rw [round_eq]; norm_num
  rw [h3, h4]
  decide

/-- C4 (amended): for every non-degenerate Selection and zoom > 0, the Region
Extractor computes sourceX = x/zoom, sourceY = y/zoom, sourceWidth =
width/zoom, sourceHeight = height/zoom, and the crop raster's pixel dimensions
are the truncations ⌊sourceWidth⌋, ⌊sourceHeight⌋ (not the roundings), each
within 1 of the exact source extent; the copy offset is (sourceX, sourceY). -/
theorem extract_dims_floor (sel : Selection) (zoom : ℚ)
    (hw : 0 ≤ sel.width) (hh : 0 ≤ sel.height) (hz : 0 < zoom) :
    (extractRegion sel zoom).sourceX = sel.x / zoom ∧
    (extractRegion sel zoom).sourceY = sel.y / zoom ∧
    (extractRegion sel zoom).sourceWidth = sel.width / zoom ∧
    (extractRegion sel zoom).sourceHeight = sel.height / zoom ∧
    ((extractRegion sel zoom).canvasW : ℤ) = ⌊sel.width / zoom⌋ ∧
    ((extractRegion sel zoom).canvasH : ℤ) = ⌊sel.height / zoom⌋ ∧
    ((extractRegion sel zoom).canvasW : ℚ) ≤ sel.width / zoom ∧
    sel.width / zoom < (extractRegion sel zoom).canvasW + 1 ∧
    ((extractRegion sel zoom).canvasH : ℚ) ≤ sel.height / zoom ∧
    sel.height / zoom < (extractRegion sel zoom).canvasH + 1 := by
  have hwz : 0 ≤ sel.width / zoom := div_nonneg hw hz.le
  have hhz : 0 ≤ sel.height / zoom := div_nonneg hh hz.le
  have hw0 : (0:ℤ) ≤ ⌊sel.width / zoom⌋ := Int.floor_nonneg.mpr hwz
  have hh0 : (0:ℤ) ≤ ⌊sel.height / zoom⌋ := Int.floor_nonneg.mpr hhz
  have ew : ((⌊sel.width / zoom⌋.toNat : ℤ)) = ⌊sel.width / zoom⌋ :=
    Int.toNat_of_nonneg hw0
  have eh : ((⌊sel.height / zoom⌋.toNat : ℤ)) = ⌊sel.height / zoom⌋ :=
    Int.toNat_of_nonneg hh0
  have fw1 : ((⌊sel.width / zoom⌋ : ℚ)) ≤ sel.width / zoom := Int.floor_le _
  have fw2 : sel.width / zoom < (⌊sel.width / zoom⌋ : ℚ) + 1 := Int.lt_floor_add_one _
  have fh1 : ((⌊sel.height / zoom⌋ : ℚ)) ≤ sel.height / zoom := Int.floor_le _
  have fh2 : sel.height / zoom < (⌊sel.height / zoom⌋ : ℚ) + 1 := Int.lt_floor_add_one _
  rw [← ew] at fw1 fw2
  rw [← eh] at fh1 fh2
  refine ⟨rfl, rfl, rfl, rfl, ew, eh, ?_, ?_, ?_, ?_⟩
  · show ((⌊sel.width / zoom⌋.toNat : ℚ)) ≤ sel.width / zoom
    exact_mod_cast fw1
  · show sel.width / zoom < (⌊sel.width / zoom⌋.toNat : ℚ) + 1
    exact_mod_cast fw2
  · show ((⌊sel.height / zoom⌋.toNat : ℚ)) ≤ sel.height / zoom
    exact_mod_cast fh1
  · show sel.height / zoom < (⌊sel.height / zoom⌋.toNat : ℚ) + 1
    exact_mod_cast fh2

/-- Witness for the amended C4 at selection {0,0,3,3} and zoom 2. -/
theorem extract_dims_floor_witness :
    (extractRegion { x := 0, y := 0, width := 3, height := 3 } 2).sourceX = 0 / 2 ∧
    (extractRegion { x := 0, y := 0, width := 3, height := 3 } 2).sourceY = 0 / 2 ∧
    (extractRegion { x := 0, y := 0, width := 3, height := 3 } 2).sourceWidth = 3 / 2 ∧
    (extractRegion { x := 0, y := 0, width := 3, height := 3 } 2).sourceHeight = 3 / 2 ∧
    ((extractRegion { x := 0, y := 0, width := 3, height := 3 } 2).canvasW : ℤ)
      = ⌊(3:ℚ) / 2⌋ ∧
    ((extractRegion { x := 0, y := 0, width := 3, height := 3 } 2).canvasH : ℤ)
      = ⌊(3:ℚ) / 2⌋ ∧
    ((extractRegion { x := 0, y := 0, width := 3, height := 3 } 2).canvasW : ℚ)
      ≤ 3 / 2 ∧
    (3:ℚ) / 2
      < (extractRegion { x := 0, y := 0, width := 3, height := 3 } 2).canvasW + 1 ∧
    ((extractRegion { x := 0, y := 0, width := 3, height := 3 } 2).canvasH : ℚ)
      ≤ 3 / 2 ∧
    (3:ℚ) / 2
      < (extractRegion { x := 0, y := 0, width := 3, height := 3 } 2).canvasH + 1 :=
  extract_dims_floor { x := 0, y := 0, width := 3, height := 3 } 2
    (by norm_num) (by norm_num) (by norm_num)

/-- C8: the zoom starts at 1, each zoom control keeps a zoom in [1/2, 3] inside
[1/2, 3]; moreover zooming out never produces a value below 1/2 from any
starting value, and zooming in never produces a value above 3. -/
theorem zoom_bounds (z : ℚ) (h1 : 1/2 ≤ z) (h2 : z ≤ 3) :
    initialZoom = 1 ∧
    (1/2 ≤ zoomOutStep z ∧ zoomOutStep z ≤ 3) ∧
    (1/2 ≤ zoomInStep z ∧ zoomInStep z ≤ 3) ∧
    (1/2 ≤ zoomResetStep z ∧ zoomResetStep z ≤ 3) ∧
    (∀ w : ℚ, 1/2 ≤ zoomOutStep w) ∧
    (∀ w : ℚ, zoomInStep w ≤ 3) := by
  simp only [zoomOutStep, zoomInStep, zoomResetStep]
  exact ⟨rfl, ⟨le_max_left _ _, max_le (by norm_num) (by linarith)⟩,
    ⟨le_min (by norm_num) (by linarith), min_le_left _ _⟩,
    ⟨by norm_num, by norm_num⟩,
    fun w => le_max_left _ _, fun w => min_le_left _ _⟩

/-- Witness for C8 at zoom 1 (the initial value). -/
theorem zoom_bounds_witness :
    initialZoom = 1 ∧
    (1/2 ≤ zoomOutStep 1 ∧ zoomOutStep 1 ≤ 3) ∧
    (1/2 ≤ zoomInStep 1 ∧ zoomInStep 1 ≤ 3) ∧
    (1/2 ≤ zoomResetStep 1 ∧ zoomResetStep 1 ≤ 3) ∧
    (∀ w : ℚ, 1/2 ≤ zoomOutStep w) ∧
    (∀ w : ℚ, zoomInStep w ≤ 3) :=
  zoom_bounds 1 (by norm_num) (by norm_num)

/-- C10: with n ≥ 1 pages and current index i in [0, n-1], the Previous button
maps i to max(0, i-1), the Next button maps i to min(n-1, i+1), both results
stay in [0, n-1], and the buttons are disabled exactly at i = 0 (Previous) and
i = n-1 (Next), so navigation never indexes outside the page list. -/
theorem page_navigation_bounds (n i : ℤ) (hn : 1 ≤ n) (h0 : 0 ≤ i)
    (hi : i ≤ n - 1) :
    prevPage i = max 0 (i - 1) ∧
    0 ≤ prevPage i ∧ prevPage i ≤ n - 1 ∧
    nextPage n i = min (n - 1) (i + 1) ∧
    0 ≤ nextPage n i ∧ nextPage n i ≤ n - 1 ∧
    (prevDisabled i = true ↔ i = 0) ∧
    (nextDisabled n i = true ↔ i = n - 1) := by
  refine ⟨rfl, ?_, ?_, rfl, ?_, ?_, by simp [prevDisabled], by simp [nextDisabled]⟩
  · simp only [prevPage]; omega
  · simp only [prevPage]; omega
  · simp only [nextPage]; omega
  · simp only [nextPage]; omega

/-- Witness for C10 with 3 pages at index 1. -/
theorem page_navigation_bounds_witness :
    prevPage 1 = max 0 (1 - 1) ∧
    0 ≤ prevPage 1 ∧ prevPage 1 ≤ 3 - 1 ∧
    nextPage 3 1 = min (3 - 1) (1 + 1) ∧
    0 ≤ nextPage 3 1 ∧ nextPage 3 1 ≤ 3 - 1 ∧
    (prevDisabled 1 = true ↔ (1:ℤ) = 0) ∧
    (nextDisabled 3 1 = true ↔ (1:ℤ) = 3 - 1) :=
  page_navigation_bounds 3 1 (by norm_num) (by norm_num) (by norm_num)

/-- C3 (code-bug evaluation): in the state holding the degenerate selection
{100, 100, 0, 0} (a zero-movement drag), performOCR does not take its early
return: the guard only checks for a missing selection or page, so the
Recognition Service is invoked on a 0×0 crop instead of the claimed
"nothing selected" signal. -/
theorem performOCR_degenerate_invokes_recognition :
    degenState.selection = some { x := 100, y := 100, width := 0, height := 0 } ∧
    ({ x := 100, y := 100, width := 0, height := 0 } : Selection).width = 0 ∧
    performOCRCrop degenState =
      some { sourceX := 100, sourceY := 100, sourceWidth := 0, sourceHeight := 0,
             canvasW := 0, canvasH := 0 } := by
  refine ⟨rfl, rfl, ?_⟩
  simp [performOCRCrop, degenState, extractRegion, canvasDimOfNumber, pageA]

/-- Per-axis arithmetic of `clampToPage`: the clamped offset and extent are
non-negative and together fit within the bound. -/
lemma clampAxis_bounds (bound lo ext : ℚ) (hb : 0 ≤ bound) :
    0 ≤ min (max lo 0) bound ∧
    0 ≤ max (min (lo + ext) bound - max lo 0) 0 ∧
    min (max lo 0) bound + max (min (lo + ext) bound - max lo 0) 0 ≤ bound := by
  refine ⟨le_min (le_max_right lo 0) hb, le_max_right _ 0, ?_⟩
  rcases le_total (min (lo + ext) bound) (max lo 0) with h | h
  · rw [max_eq_right (by linarith : min (lo + ext) bound - max lo 0 ≤ 0), add_zero]
    exact min_le_right _ _
  · have h1 : min (lo + ext) bound ≤ bound := min_le_right _ _
    have h2 : max lo 0 ≤ bound := le_trans h h1
    rw [max_eq_left (by linarith : (0:ℚ) ≤ min (lo + ext) bound - max lo 0),
      min_eq_left h2]
    linarith

/-- C5: when the selection's source-space rectangle falls (partially) outside
the page, the drawImage copy clips it to the page's bounds: the effective
copied rectangle always lies within the page, a rectangle already inside the
page is left unchanged by the clipping, and the extraction still proceeds
(performOCR reaches the recognition call; nothing fails). -/
theorem effectiveSource_clamped (st : SessionState) (sel : Selection)
    (page : PDFPage) (hsel : st.selection = some sel)
    (hpage : st.pdfPages.get? st.currentPage = some page) :
    performOCRCrop st = some (extractRegion sel st.zoom) ∧
    (0 ≤ (effectiveSource page (extractRegion sel st.zoom)).x ∧
     0 ≤ (effectiveSource page (extractRegion sel st.zoom)).y ∧
     0 ≤ (effectiveSource page (extractRegion sel st.zoom)).w ∧
     0 ≤ (effectiveSource page (extractRegion sel st.zoom)).h ∧
     (effectiveSource page (extractRegion sel st.zoom)).x
       + (effectiveSource page (extractRegion sel st.zoom)).w ≤ (page.width : ℚ) ∧
     (effectiveSource page (extractRegion sel st.zoom)).y
       + (effectiveSource page (extractRegion sel st.zoom)).h ≤ (page.height : ℚ)) ∧
    (∀ a b c d : ℚ, 0 ≤ a → 0 ≤ b → 0 ≤ c → 0 ≤ d →
      a + c ≤ (page.width : ℚ) → b + d ≤ (page.height : ℚ) →
      clampToPage page.width page.height { x := a, y := b, w := c, h := d }
        = { x := a, y := b, w := c, h := d }) := by
  have hpage2 : st.pdfPages[st.currentPage]? = some page := by
    rw [← List.get?_eq_getElem?]; exact hpage
  refine ⟨?_, ?_, ?_⟩
  · simp [performOCRCrop, hsel, hpage2]
  · have hx := clampAxis_bounds (page.width : ℚ)
      ((extractRegion sel st.zoom).sourceX)
      ((extractRegion sel st.zoom).sourceWidth) (Nat.cast_nonneg _)
    have hy := clampAxis_bounds (page.height : ℚ)
      ((extractRegion sel st.zoom).sourceY)
      ((extractRegion sel st.zoom).sourceHeight) (Nat.cast_nonneg _)
    simp only [effectiveSource, clampToPage]
    exact ⟨hx.1, hy.1, hx.2.1, hy.2.1, hx.2.2, hy.2.2⟩
  · intro a b c d h1 h2 h3 h4 h5 h6
    have ha : a ≤ (page.width : ℚ) := by linarith
    have hb : b ≤ (page.height : ℚ) := by linarith
    simp only [clampToPage, SourceRect.mk.injEq]
    refine ⟨?_, ?_, ?_, ?_⟩
    · rw [max_eq_left h1]; exact min_eq_left ha
    · rw [max_eq_left h2]; exact min_eq_left hb
    · rw [max_eq_left h1, min_eq_left h5, add_sub_cancel_left]
      exact max_eq_left h3
    · rw [max_eq_left h2, min_eq_left h6, add_sub_cancel_left]
      exact max_eq_left h4

/-- Witness for C5: the selection {1900,1500,200,200} at zoom 2 over the
1000×800 page, whose source rectangle (950,750,100,100) overruns the page. -/
theorem effectiveSource_clamped_witness :
    performOCRCrop pastEdgeState
      = some (extractRegion { x := 1900, y := 1500, width := 200, height := 200 }
          pastEdgeState.zoom) ∧
    (0 ≤ (effectiveSource pageA
        (extractRegion { x := 1900, y := 1500, width := 200, height := 200 }
          pastEdgeState.zoom)).x ∧
     0 ≤ (effectiveSource pageA
        (extractRegion { x := 1900, y := 1500, width := 200, height := 200 }
          pastEdgeState.zoom)).y ∧
     0 ≤ (effectiveSource pageA
        (extractRegion { x := 1900, y := 1500, width := 200, height := 200 }
          pastEdgeState.zoom)).w ∧
     0 ≤ (effectiveSource pageA
        (extractRegion { x := 1900, y := 1500, width := 200, height := 200 }
          pastEdgeState.zoom)).h ∧
     (effectiveSource pageA
        (extractRegion { x := 1900, y := 1500, width := 200, height := 200 }
          pastEdgeState.zoom)).x
       + (effectiveSource pageA
          (extractRegion { x := 1900, y := 1500, width := 200, height := 200 }
            pastEdgeState.zoom)).w ≤ (pageA.width : ℚ) ∧
     (effectiveSource pageA
        (extractRegion { x := 1900, y := 1500, width := 200, height := 200 }
          pastEdgeState.zoom)).y
       + (effectiveSource pageA
          (extractRegion { x := 1900, y := 1500, width := 200, height := 200 }
            pastEdgeState.zoom)).h ≤ (pageA.height : ℚ)) ∧
    (∀ a b c d : ℚ, 0 ≤ a → 0 ≤ b → 0 ≤ c → 0 ≤ d →
      a + c ≤ (pageA.width : ℚ) → b + d ≤ (pageA.height : ℚ) →
      clampToPage pageA.width pageA.height { x := a, y := b, w := c, h := d }
        = { x := a, y := b, w := c, h := d }) :=
  effectiveSource_clamped pastEdgeState
    { x := 1900, y := 1500, width := 200, height := 200 } pageA rfl rfl

/-- C6: after a zoom control fires, extraction divides the unchanged selection
by the zoom current at extraction time; when the control actually changed the
zoom and the selection is non-degenerate, the crop differs from the one the
draw-time zoom would have produced (no stale-scale caching). -/
theorem extract_uses_current_zoom (st : SessionState) (e : ZoomEvent)
    (sel : Selection) (page : PDFPage) (hsel : st.selection = some sel)
    (hpage : st.pdfPages.get? st.currentPage = some page) :
    (stepZoom st e).zoom = applyZoom e st.zoom ∧
    performOCRCrop (stepZoom st e)
      = some (extractRegion sel (applyZoom e st.zoom)) ∧
    (applyZoom e st.zoom ≠ st.zoom → st.zoom ≠ 0 → applyZoom e st.zoom ≠ 0 →
      sel.width ≠ 0 →
      extractRegion sel (applyZoom e st.zoom) ≠ extractRegion sel st.zoom) := by
  have hpage2 : st.pdfPages[st.currentPage]? = some page := by
    rw [← List.get?_eq_getElem?]; exact hpage
  refine ⟨rfl, ?_, ?_⟩
  · simp [performOCRCrop, stepZoom, hsel, hpage2]
  · intro hne hz0 hz0' hw heq
    apply hne
    have h : sel.width / applyZoom e st.zoom = sel.width / st.zoom := by
      have h2 := congrArg Crop.sourceWidth heq
      simpa [extractRegion] using h2
    rw [div_eq_div_iff hz0' hz0] at h
    exact (mul_left_cancel₀ hw h).symm

/-- Witness for C6: zoom 2 at draw time, reset to zoom 1 before extraction. -/
theorem extract_uses_current_zoom_witness :
    (stepZoom zoom2State ZoomEvent.zoomReset).zoom
      = applyZoom ZoomEvent.zoomReset zoom2State.zoom ∧
    performOCRCrop (stepZoom zoom2State ZoomEvent.zoomReset)
      = some (extractRegion { x := 100, y := 100, width := 200, height := 150 }
          (applyZoom ZoomEvent.zoomReset zoom2State.zoom)) ∧
    (applyZoom ZoomEvent.zoomReset zoom2State.zoom ≠ zoom2State.zoom →
      zoom2State.zoom ≠ 0 →
      applyZoom ZoomEvent.zoomReset zoom2State.zoom ≠ 0 →
      ({ x := 100, y := 100, width := 200, height := 150 } : Selection).width ≠ 0 →
      extractRegion { x := 100, y := 100, width := 200, height := 150 }
          (applyZoom ZoomEvent.zoomReset zoom2State.zoom)
        ≠ extractRegion { x := 100, y := 100, width := 200, height := 150 }
            zoom2State.zoom) :=
  extract_uses_current_zoom zoom2State ZoomEvent.zoomReset
    { x := 100, y := 100, width := 200, height := 150 } pageA rfl rfl

/-- C7 counterexample: a GIF upload has MIME type "image/gif", which is none of
PDF, JPEG or PNG, yet the handler's `startsWith("image/")` test accepts it and
the upload changes the session state. -/
theorem upload_accepts_gif :
    acceptsFileType ("image/gif") = true ∧
    ("image/gif") ≠ ("application/pdf") ∧
    ("image/gif") ≠ ("image/jpeg") ∧
    ("image/gif") ≠ ("image/png") ∧
    handleFileUpload baseState ("anim.gif") ("image/gif") (.ok [pageA])
      ≠ baseState := by
  have hacc : acceptsFileType ("image/gif") = true := by decide
  refine ⟨hacc, by decide, by decide, by decide, ?_⟩
  intro h
  have h2 := congrArg SessionState.pdfFile h
  simp [handleFileUpload, hacc, baseState] at h2

/-- C7 (amended): the handler rejects exactly the files whose MIME type neither
starts with "image/" nor equals "application/pdf", leaving the whole session
state unchanged on rejection; PDF, JPEG and PNG files are accepted (along with
every other image/* type), and a .txt upload (text/plain) is rejected. -/
theorem upload_mime_contract (st : SessionState) (fileName fileType : String)
    (d : DecodeResult) (hrej : acceptsFileType fileType = false) :
    handleFileUpload st fileName fileType d = st ∧
    acceptsFileType ("application/pdf") = true ∧
    acceptsFileType ("image/jpeg") = true ∧
    acceptsFileType ("image/png") = true ∧
    acceptsFileType ("text/plain") = false := by
  refine ⟨?_, by decide, by decide, by decide, by decide⟩
  simp [handleFileUpload, hrej]

/-- Witness for the amended C7: a rejected text/plain upload. -/
theorem upload_mime_contract_witness :
    handleFileUpload baseState ("notes.txt") ("text/plain") DecodeResult.err
      = baseState ∧
    acceptsFileType ("application/pdf") = true ∧
    acceptsFileType ("image/jpeg") = true ∧
    acceptsFileType ("image/png") = true ∧
    acceptsFileType ("text/plain") = false :=
  upload_mime_contract baseState ("notes.txt") ("text/plain") DecodeResult.err
    (by decide)

/-- C9 counterexample: an accepted PDF upload whose decoding fails leaves the
session partially updated: the page list is unchanged but pdfFile has already
been replaced (setPdfFile runs at line 100, before the try block), so the
failing operation neither fully replaces nor leaves untouched the session
state. -/
theorem upload_failure_partial_update :
    handleFileUpload loadedState ("new.pdf") ("application/pdf") DecodeResult.err
      ≠ loadedState ∧
    (handleFileUpload loadedState ("new.pdf") ("application/pdf")
        DecodeResult.err).pdfPages = loadedState.pdfPages ∧
    (handleFileUpload loadedState ("new.pdf") ("application/pdf")
        DecodeResult.err).pdfFile = some ("new.pdf") ∧
    loadedState.pdfFile = some ("old.pdf") := by
  have hacc : acceptsFileType ("application/pdf") = true := by decide
  refine ⟨?_, ?_, ?_, rfl⟩
  · intro h
    have h2 := congrArg SessionState.pdfFile h
    simp [handleFileUpload, hacc, loadedState] at h2
  · simp [handleFileUpload, hacc]
  · simp [handleFileUpload, hacc]

/-- C9 (amended): the Page list and ExtractedText are atomic. A decode failure
leaves the page list, current page, selection and extracted text unchanged —
though pdfFile has by then been set to the new file — and a successful upload
fully replaces the page list and resets the index; a recognition failure
leaves the entire state (in particular ExtractedText) unchanged, and a
successful recognition fully replaces ExtractedText with the trimmed result. -/
theorem state_replacement_contract (st : SessionState)
    (fileName fileType : String) (pages : List PDFPage) (txt : String)
    (sel : Selection) (page : PDFPage)
    (hacc : acceptsFileType fileType = true)
    (hsel : st.selection = some sel)
    (hpage : st.pdfPages.get? st.currentPage = some page) :
    ((handleFileUpload st fileName fileType DecodeResult.err).pdfPages
        = st.pdfPages ∧
     (handleFileUpload st fileName fileType DecodeResult.err).currentPage
        = st.currentPage ∧
     (handleFileUpload st fileName fileType DecodeResult.err).selection
        = st.selection ∧
     (handleFileUpload st fileName fileType DecodeResult.err).extractedText
        = st.extractedText ∧
     (handleFileUpload st fileName fileType DecodeResult.err).pdfFile
        = some fileName) ∧
    ((handleFileUpload st fileName fileType (DecodeResult.ok pages)).pdfPages
        = pages ∧
     (handleFileUpload st fileName fileType (DecodeResult.ok pages)).currentPage
        = 0) ∧
    performOCRState st RecognitionResult.err = st ∧
    performOCRState st (RecognitionResult.ok txt)
      = { st with extractedText := txt.trim } := by
  have hpage2 : st.pdfPages[st.currentPage]? = some page := by
    rw [← List.get?_eq_getElem?]; exact hpage
  refine ⟨⟨?_, ?_, ?_, ?_, ?_⟩, ⟨?_, ?_⟩, ?_, ?_⟩ <;>
    simp [handleFileUpload, hacc, performOCRState, hsel, hpage2]

/-- Witness for the amended C9 on the concrete degenerate-selection session. -/
theorem state_replacement_contract_witness :
    ((handleFileUpload degenState ("new.pdf") ("application/pdf")
        DecodeResult.err).pdfPages = degenState.pdfPages ∧
     (handleFileUpload degenState ("new.pdf") ("application/pdf")
        DecodeResult.err).currentPage = degenState.currentPage ∧
     (handleFileUpload degenState ("new.pdf") ("application/pdf")
        DecodeResult.err).selection = degenState.selection ∧
     (handleFileUpload degenState ("new.pdf") ("application/pdf")
        DecodeResult.err).extractedText = degenState.extractedText ∧
     (handleFileUpload degenState ("new.pdf") ("application/pdf")
        DecodeResult.err).pdfFile = some ("new.pdf")) ∧
    ((handleFileUpload degenState ("new.pdf") ("application/pdf")
        (DecodeResult.ok [pageA])).pdfPages = [pageA] ∧
     (handleFileUpload degenState ("new.pdf") ("application/pdf")
        (DecodeResult.ok [pageA])).currentPage = 0) ∧
    performOCRState degenState RecognitionResult.err = degenState ∧
    performOCRState degenState (RecognitionResult.ok ("  hello "))
      = { degenState with extractedText := ("  hello ").trim } :=
  state_replacement_contract degenState ("new.pdf") ("application/pdf") [pageA]
    ("  hello ") { x := 100, y := 100, width := 0, height := 0 } pageA
    (by decide) rfl rfl

end OCRTool
